import Mathlib

/-!
Shallow embedding of the ramchi HTTP server framework (github.com/etwodev/ramchi),
covering the activation & composition engine (`initMux` in ramchi.go), the CORS and
logging middlewares (middleware/public.go), the router/route/middleware descriptors
(router package), the config singleton (config/config.go) and the start-up control
flow of `Server.Start` (ramchi.go).

Handlers are modelled as functions threading a response-writer state, mirroring Go's
`http.Handler` where middleware sets headers on the shared `ResponseWriter` before
delegating to the next handler.
-/

namespace Ramchi

/-- An HTTP request: method, URL path, headers, and context values
(Go `context.Context` values, modelled as a list of tags). -/
structure Request where
  method : String
  path : String
  headers : List (String × String)
  ctx : List String
deriving Repr, DecidableEq

/-- Response-writer state: headers set so far, status code, body written so far.
Go sends status 200 when a handler writes nothing else. -/
structure Resp where
  headers : List (String × String)
  status : Nat
  body : String
deriving Repr, DecidableEq

/-- The fresh response writer handed to the handler chain for a request. -/
def emptyResp : Resp := { headers := [], status := 200, body := "" }

/-- Go `http.Header.Get`: first value for the key, `""` when absent. -/
def headerGet (hs : List (String × String)) (k : String) : String :=
  match hs.find? (fun p => p.1 == k) with
  | some p => p.2
  | none => ""

/-- Header lookup returning `none` when the header is absent (used to state
"the response carries no such header"). -/
def headerLookup (hs : List (String × String)) (k : String) : Option String :=
  (hs.find? (fun p => p.1 == k)).map Prod.snd

/-- Go `http.Header.Set`: replaces any existing values for the key. -/
def headerSet (hs : List (String × String)) (k v : String) : List (String × String) :=
  (hs.filter (fun p => p.1 != k)) ++ [(k, v)]

/-- `http.Handler`: consumes the request and the current writer state. -/
abbrev Handler := Request → Resp → Resp

/-- `func(http.Handler) http.Handler`, the middleware transform shape. -/
abbrev MwFunc := Handler → Handler

/-- middleware.Middleware descriptor (middleware package): transform, name,
enabled flag, experimental flag. -/
structure MiddlewareD where
  method : MwFunc
  name : String
  status : Bool
  experimental : Bool

/-- router.Route descriptor (router package). -/
structure RouteD where
  method : String
  path : String
  status : Bool
  experimental : Bool
  handler : Handler
  middleware : List MwFunc

/-- router.Router descriptor (router package).  The base path field is called
`Prefix()` in the source; Lean reserves that word, so it is `base` here. -/
structure RouterD where
  status : Bool
  base : String
  routes : List RouteD
  middleware : List MwFunc

/-- config.Config (config/types.go); durations in seconds as in the source. -/
structure Config where
  port : String := "8080"
  address : String := "localhost"
  experimental : Bool := false
  readTimeout : Nat := 0
  writeTimeout : Nat := 0
  idleTimeout : Nat := 0
  logLevel : String := ""
  maxHeaderBytes : Nat := 0
  enableTLS : Bool := false
  tlsCertFile : String := ""
  tlsKeyFile : String := ""
  shutdownTimeout : Nat := 0
  enableCORS : Bool := false
  allowedOrigins : List String := []
  enableRequestLogging : Bool := false
deriving Repr, DecidableEq

/-- middleware.NewLoggingMiddleware's transform: injects the logger into the
request context and delegates (middleware/public.go lines 38-45). -/
def loggingMwFunc : MwFunc :=
  fun next req w => next { req with ctx := req.ctx ++ ["ramchi-logger"] } w

/-- middleware.NewLoggingMiddleware logger (middleware/public.go). -/
def newLoggingMiddleware : MiddlewareD :=
  { method := loggingMwFunc, name := "ramchi_logger_inject", status := true, experimental := false }

/-- The allowed-origin check of the CORS middleware (middleware/public.go lines 55-64):
wildcard when the list is exactly ["*"], otherwise linear scan for the origin. -/
def corsAllowed (allowedOrigins : List String) (origin : String) : Bool :=
  if allowedOrigins.length == 1 && allowedOrigins.headD "" == "*" then true
  else allowedOrigins.any (fun o => o == origin)

/-- The five header writes the CORS middleware performs when the origin is allowed
(middleware/public.go lines 66-72). -/
def corsSetHeaders (origin : String) (w : Resp) : Resp :=
  let h1 := headerSet w.headers "Access-Control-Allow-Origin" origin
  let h2 := headerSet h1 "Vary" "Origin"
  let h3 := headerSet h2 "Access-Control-Allow-Methods" "GET, POST, PUT, DELETE, OPTIONS"
  let h4 := headerSet h3 "Access-Control-Allow-Headers" "Accept, Authorization, Content-Type, X-CSRF-Token"
  let h5 := headerSet h4 "Access-Control-Allow-Credentials" "true"
  { w with headers := h5 }

/-- middleware.NewCORSMiddleware's transform (middleware/public.go lines 49-83):
set CORS headers when the origin is allowed; short-circuit OPTIONS requests with
status 200 and no body write; otherwise delegate. -/
def corsMwFunc (allowedOrigins : List String) : MwFunc :=
  fun next req w =>
    let origin := headerGet req.headers "Origin"
    let allowed := corsAllowed allowedOrigins origin
    let w' := if allowed then corsSetHeaders origin w else w
    if req.method == "OPTIONS" then { w' with status := 200 }
    else next req w'

/-- middleware.NewCORSMiddleware (middleware/public.go). -/
def newCORSMiddleware (allowedOrigins : List String) : MiddlewareD :=
  { method := corsMwFunc allowedOrigins, name := "ramchi_cors", status := true, experimental := false }

/-- One `(method, pattern) -> handler` entry of the dispatch graph.  `pattern`
is the full external request path the entry is served at. -/
structure Registration where
  method : String
  pattern : String
  handler : Handler

/-- The chi.Mux as built by initMux: `Use`d middlewares (in order), the route
registrations, and whether chi's root handler has been built (`Mux.handler`
becomes non-nil as soon as any route or sub-router mount is registered). -/
structure Mux where
  middlewares : List MwFunc
  registrations : List Registration
  handlerBuilt : Bool

/-- chi's middleware chain: the first `Use`d middleware is outermost
(chi builds the chain from the end of the list inwards). -/
def chiChain (mws : List MwFunc) (h : Handler) : Handler :=
  mws.foldr (fun m acc => m acc) h

/-- chi's not-found handler. -/
def notFound : Handler := fun _ w =>
  { w with status := 404, body := w.body ++ "404 page not found\n" }

/-- Routing: find the registration matching method and path, else 404. -/
def routeHTTP (regs : List Registration) : Handler := fun req w =>
  match regs.find? (fun r => r.method == req.method && r.pattern == req.path) with
  | some r => r.handler req w
  | none => notFound req w

/-- Serving one request through the mux (chi `Mux.ServeHTTP`): when the root
handler was never built (no route or mount registered at all), chi serves
NotFound directly without running any `Use`d middleware; otherwise the routing
step runs wrapped in all `Use`d middlewares, so middleware then runs even when
no route matches the path. -/
def dispatch (m : Mux) (req : Request) : Resp :=
  if m.handlerBuilt then chiChain m.middlewares (routeHTTP m.registrations) req emptyResp
  else notFound req emptyResp

/-- The route-local wrap of initMux (ramchi.go lines 282-285):
`finalHandler := rt.Handler(); for _, mw := range rt.Middleware() { finalHandler = mw(finalHandler) }`. -/
def localWrap (mws : List MwFunc) (h : Handler) : Handler :=
  mws.foldl (fun acc m => m acc) h

/-- The skip condition for a route in initMux (ramchi.go line 269):
`!rt.Status() || (rt.Experimental() != c.Experimental() && rt.Experimental())`. -/
def routeSkip (toggle : Bool) (rt : RouteD) : Bool :=
  !rt.status || (rt.experimental != toggle && rt.experimental)

/-- The mount condition for a user middleware in initMux (ramchi.go line 247):
`middleware.Status() && (middleware.Experimental() == c.Experimental() || !middleware.Experimental())`. -/
def mwMount (toggle : Bool) (mw : MiddlewareD) : Bool :=
  mw.status && (mw.experimental == toggle || !mw.experimental)

/-- Whether the string's last character is '/'. -/
def endsWithSlash (s : String) : Bool :=
  match s.data.getLast? with
  | some c => c == '/'
  | none => false

/-- The registration produced for route `rt` of router `rtr`.  The sub-router
is mounted at the scope pattern `"/" ++ base` (ramchi.go line 263) and the
route is registered at `"/" ++ rt.path` inside it (lines 273, 287).  chi v5
Mount composition: a scope pattern already ending in "/" is registered as
`pattern ++ "*"` and the sub-router routes `"/" ++ <captured tail>`, so the
external path is `scope ++ rt.path`; otherwise the wildcard is
`pattern ++ "/*"` and the external path is `scope ++ "/" ++ rt.path`.  The
router-level middlewares `Use`d in the sub-scope (lines 264-266) wrap the
locally wrapped route handler. -/
def routeRegistration (rtr : RouterD) (rt : RouteD) : Registration :=
  { method := rt.method
  , pattern :=
      if endsWithSlash ("/" ++ rtr.base)
      then ("/" ++ rtr.base) ++ rt.path
      else ("/" ++ rtr.base) ++ ("/" ++ rt.path)
  , handler := chiChain rtr.middleware (localWrap rt.middleware rt.handler) }

/-- chi `Mux.Use`: append a middleware. -/
def use (m : Mux) (t : MwFunc) : Mux :=
  { m with middlewares := m.middlewares ++ [t] }

/-- chi route registration: append a dispatch-graph entry. -/
def register (m : Mux) (r : Registration) : Mux :=
  { m with registrations := m.registrations ++ [r] }

/-- The per-router part of initMux (ramchi.go lines 258-290): skip the router
entirely when disabled, else mount the sub-router with `m.Route` (which builds
chi's root handler even when every route of the router ends up skipped) and
register every non-skipped route. -/
def initMuxRouter (toggle : Bool) (m : Mux) (rtr : RouterD) : Mux :=
  if !rtr.status then m
  else rtr.routes.foldl
    (fun m rt => if routeSkip toggle rt then m else register m (routeRegistration rtr rt))
    { m with handlerBuilt := true }

/-- The built-in middleware registrations of initMux (ramchi.go lines 222-244):
request logging when enabled, CORS when enabled with a nonempty origin list. -/
def useBuiltins (cfg : Config) (m : Mux) : Mux :=
  let m1 := if cfg.enableRequestLogging then use m newLoggingMiddleware.method else m
  if cfg.enableCORS && decide (0 < cfg.allowedOrigins.length) then
    use m1 (newCORSMiddleware cfg.allowedOrigins).method
  else m1

/-- Server.initMux (ramchi.go lines 221-291): built-in middleware, then user
middleware filtered by the mount condition, then the routers. -/
def initMux (cfg : Config) (middlewares : List MiddlewareD) (routers : List RouterD) : Mux :=
  List.foldl (initMuxRouter cfg.experimental)
    (List.foldl
      (fun m mw => if mwMount cfg.experimental mw then use m mw.method else m)
      (useBuiltins cfg { middlewares := [], registrations := [], handlerBuilt := false })
      middlewares)
    routers

/-- One step of Go path.Clean's `..` elimination over the segment stack. -/
def dotdotStep (rooted : Bool) (stack : List String) (seg : String) : List String :=
  if seg == ".." then
    match stack with
    | [] => if rooted then [] else [".."]
    | top :: rest => if top == ".." then seg :: stack else rest
  else seg :: stack

/-- Splitting on '/' at the character level (Go strings.Split semantics:
empty segments are kept). -/
def splitSlash : List Char → List Char → List (List Char)
  | [], cur => [cur.reverse]
  | c :: rest, cur =>
    if c == '/' then cur.reverse :: splitSlash rest [] else splitSlash rest (c :: cur)

/-- Go path.Clean: drop empty and "." segments, resolve "..", keep rootedness;
"" cleans to ".". -/
def pathClean (p : String) : String :=
  if p = "" then "."
  else
    let rooted : Bool := match p.data with | c :: _ => c == '/' | [] => false
    let segs := ((splitSlash p.data []).map String.mk).filter (fun s => s != "" && s != ".")
    let segs := (segs.foldl (dotdotStep rooted) []).reverse
    if rooted then "/" ++ String.intercalate "/" segs
    else if segs.isEmpty then "." else String.intercalate "/" segs

/-- Go path.Join: drop empty elements, join the rest with "/", then Clean;
all-empty input gives "". -/
def goPathJoin (elems : List String) : String :=
  let ne := elems.filter (fun e => e != "")
  if ne.isEmpty then "" else pathClean (String.intercalate "/" ne)

/-- The net/http boundary of Server.Start: whether the listener bind succeeds and
whether a certificate/key file pair is loadable. -/
structure NetEnv where
  bindOk : Bool
  tlsCertKeyValid : String → String → Bool

/-- Outcome of a run of Server.Start that does not end in clean shutdown:
either a fatal log (process terminates, no retry) or the accept loop running. -/
inductive StartOutcome where
  | fatal (msg : String)
  | serving (tls : Bool)
deriving Repr, DecidableEq

/-- Whether the server reached its accept loop (started accepting connections). -/
def acceptedConnections : StartOutcome → Bool
  | .fatal _ => false
  | .serving _ => true

/-- net/http `ListenAndServeTLS` as documented: the certificate pair is loaded
before the accept loop starts, so an invalid pair returns an error before any
connection is accepted. -/
def listenAndServeTLSRun (env : NetEnv) (cert key : String) : Except String Unit :=
  if !env.bindOk then .error "listen tcp: bind failed"
  else if !(env.tlsCertKeyValid cert key) then .error "tls: failed to load certificates"
  else .ok ()

/-- net/http `ListenAndServe`. -/
def listenAndServeRun (env : NetEnv) : Except String Unit :=
  if !env.bindOk then .error "listen tcp: bind failed" else .ok ()

/-- Server.Start (ramchi.go lines 146-197), error path: the TLS branch is chosen
by the configuration flag; a non-ErrServerClosed error is logged at fatal level
(terminating the process, never retried). Clean shutdown is out of scope here. -/
def startRun (cfg : Config) (env : NetEnv) : StartOutcome :=
  if cfg.enableTLS then
    match listenAndServeTLSRun env cfg.tlsCertFile cfg.tlsKeyFile with
    | .error _ => .fatal "HTTPS server failed"
    | .ok _ => .serving true
  else
    match listenAndServeRun env with
    | .error _ => .fatal "HTTP server failed"
    | .ok _ => .serving false

/-- The on-disk config file, abstracted to the result of unmarshalling it
(config/config.go `Load` reads and json.Unmarshal's the file). -/
structure ConfFile where
  parsed : Except String Config
deriving Repr

/-- config.Load (config/config.go lines 13-31): when the file is absent, Create
writes the default config (Port "8080", Address "localhost", Experimental false,
zero values elsewhere) and Load then reads it back; otherwise the existing file
is read and unmarshalled, an unmarshal error leaving the package variable unset. -/
def loadRun : Option ConfFile → Except String Config × Option ConfFile
  | none => (.ok {}, some ⟨.ok {}⟩)
  | some f =>
    match f.parsed with
    | .ok cfg => (.ok cfg, some f)
    | .error e => (.error e, some f)

/-- config.New (config/config.go lines 45-53): load only when the package-level
config `c` is nil; always succeed when it is already set.  Returns (error, new
package state, new file system state). -/
def newRun (c : Option Config) (fs : Option ConfFile) :
    Except String Unit × Option Config × Option ConfFile :=
  match c with
  | some cfg => (.ok (), some cfg, fs)
  | none =>
    match loadRun fs with
    | (.ok cfg, fs1) => (.ok (), some cfg, fs1)
    | (.error e, fs1) => (.error e, none, fs1)

/-- The dispatch-graph entries contributed by one router: none when the router is
disabled, else one entry per non-skipped route (summarises the per-router loop of
initMux). -/
def routerRegs (toggle : Bool) (rtr : RouterD) : List Registration :=
  if rtr.status then
    (rtr.routes.filter (fun rt => !routeSkip toggle rt)).map (routeRegistration rtr)
  else []

/-- The transforms `Use`d by initMux before any user middleware: request logging
and CORS, each gated by its configuration flag. -/
def builtinMwFuncs (cfg : Config) : List MwFunc :=
  (if cfg.enableRequestLogging then [loggingMwFunc] else []) ++
  (if cfg.enableCORS && decide (0 < cfg.allowedOrigins.length) then
    [corsMwFunc cfg.allowedOrigins]
  else [])

/-! Concrete fixtures used by the end-to-end statements below. -/

/-- A trivial handler. -/
def hW : Handler := fun _ w => w

/-- A recording middleware: tags the request with its name before delegating,
so the response body can show the order middlewares observed the request. -/
def visit (tag : String) : MwFunc :=
  fun next req w => next { req with headers := req.headers ++ [("X-Visit", tag)] } w

/-- A route handler that answers 200 with the visit tags in arrival order. -/
def recorder : Handler := fun req w =>
  let visits := (req.headers.filter (fun p => p.1 == "X-Visit")).map Prod.snd
  { w with status := 200, body := w.body ++ String.intercalate "," visits }

/-- GET ping route with the recording handler and no local middleware. -/
def rtE : RouteD :=
  { method := "GET", path := "ping", status := true, experimental := false,
    handler := recorder, middleware := [] }

/-- Enabled router at base "test" holding `rtE`. -/
def rtrE : RouterD := { status := true, base := "test", routes := [rtE], middleware := [] }

/-- GET ping route whose local middlewares record "M1" then "M2". -/
def rtLocal : RouteD :=
  { method := "GET", path := "ping", status := true, experimental := false,
    handler := recorder, middleware := [visit "M1", visit "M2"] }

/-- Enabled router at base "test" holding `rtLocal`. -/
def rtrLocal : RouterD :=
  { status := true, base := "test", routes := [rtLocal], middleware := [] }

/-- Recording global middlewares A and B, both enabled and non-experimental. -/
def mwA : MiddlewareD := { method := visit "A", name := "A", status := true, experimental := false }

/-- See `mwA`. -/
def mwB : MiddlewareD := { method := visit "B", name := "B", status := true, experimental := false }

/-- Default configuration: CORS and request logging off, toggle off. -/
def cfgOff : Config := {}

/-- Configuration with CORS on for exactly one allowed origin. -/
def cfgCors : Config := { enableCORS := true, allowedOrigins := ["http://example.com"] }

/-- GET request to the mounted path of `rtE`. -/
def reqGP : Request := { method := "GET", path := "/test/ping", headers := [], ctx := [] }

/-- Preflight request from the allowed origin. -/
def reqGood : Request :=
  { method := "OPTIONS", path := "/test/ping",
    headers := [("Origin", "http://example.com")], ctx := [] }

/-- Preflight request from a disallowed origin. -/
def reqEvil : Request :=
  { method := "OPTIONS", path := "/test/ping",
    headers := [("Origin", "http://evil.com")], ctx := [] }

/-- Route "/ping" (leading slash) used to exhibit the slash-join discrepancy. -/
def rtSlash : RouteD :=
  { method := "GET", path := "/ping", status := true, experimental := false,
    handler := hW, middleware := [] }

/-- Router with base "/test/" (leading and trailing slash) holding `rtSlash`. -/
def rtrSlash : RouterD :=
  { status := true, base := "/test/", routes := [rtSlash], middleware := [] }

/-- An enabled, experimental route. -/
def rtExp : RouteD :=
  { method := "GET", path := "exp", status := true, experimental := true,
    handler := hW, middleware := [] }

/-- A disabled router holding an enabled, non-experimental route. -/
def rtrOff : RouterD := { status := false, base := "off", routes := [rtE], middleware := [] }

/-- A request without an Origin header. -/
def reqNoOrigin : Request := { method := "OPTIONS", path := "/x", headers := [], ctx := [] }

/-- A network environment where the bind succeeds but no cert/key pair loads. -/
def envBadCert : NetEnv := { bindOk := true, tlsCertKeyValid := fun _ _ => false }

/-- A configuration requesting TLS. -/
def cfgTLS : Config := { enableTLS := true, tlsCertFile := "cert.pem", tlsKeyFile := "key.pem" }

/-! Structural characterisations of initMux, shared by the theorems below. -/

/-- The user-middleware loop of initMux appends exactly the transforms of the
descriptors passing the mount condition, in order. -/
lemma mwFold (t : Bool) (mws : List MiddlewareD) : ∀ (m : Mux),
    List.foldl (fun m mw => if mwMount t mw then use m mw.method else m) m mws =
      { m with middlewares := m.middlewares ++ (mws.filter (mwMount t)).map MiddlewareD.method } := by
  induction mws with
  | nil => intro m; simp
  | cons mw mws ih =>
    intro m
    by_cases h : mwMount t mw
    · simp only [List.foldl_cons, if_pos h]
      rw [ih]
      simp [use, List.filter_cons, h, List.append_assoc]
    · simp only [List.foldl_cons, if_neg h]
      rw [ih]
      simp [List.filter_cons, h]

/-- The route loop of initMux appends exactly the registrations of the
non-skipped routes, in order. -/
lemma routeFold (t : Bool) (rtr : RouterD) (rts : List RouteD) : ∀ (m : Mux),
    List.foldl (fun m rt => if routeSkip t rt then m else register m (routeRegistration rtr rt)) m rts =
      { m with registrations :=
          m.registrations ++ (rts.filter (fun rt => !routeSkip t rt)).map (routeRegistration rtr) } := by
  induction rts with
  | nil => intro m; simp
  | cons rt rts ih =>
    intro m
    by_cases h : routeSkip t rt
    · simp only [List.foldl_cons, if_pos h]
      rw [ih]
      simp [List.filter_cons, h]
    · simp only [List.foldl_cons, if_neg h]
      rw [ih]
      simp [register, List.filter_cons, h, List.append_assoc]

/-- One router contributes exactly `routerRegs`, and builds the root handler
iff it is enabled. -/
lemma initMuxRouter_eq (t : Bool) (m : Mux) (rtr : RouterD) :
    initMuxRouter t m rtr =
      { m with registrations := m.registrations ++ routerRegs t rtr,
               handlerBuilt := m.handlerBuilt || rtr.status } := by
  by_cases h : rtr.status
  · simp [initMuxRouter, h, routerRegs, routeFold]
  · simp [initMuxRouter, h, routerRegs]

/-- The router loop of initMux appends the concatenation of the per-router
contributions, in order, and builds the root handler iff some router is
enabled. -/
lemma routersFold (t : Bool) (rs : List RouterD) : ∀ (m : Mux),
    List.foldl (initMuxRouter t) m rs =
      { m with registrations := m.registrations ++ (rs.map (routerRegs t)).flatten,
               handlerBuilt := m.handlerBuilt || rs.any RouterD.status } := by
  induction rs with
  | nil => intro m; simp
  | cons rtr rs ih =>
    intro m
    rw [List.foldl_cons, initMuxRouter_eq, ih]
    simp [List.append_assoc, List.any_cons, Bool.or_assoc]

/-- The built-in middleware block of initMux appends `builtinMwFuncs`. -/
lemma useBuiltins_eq (cfg : Config) (m : Mux) :
    useBuiltins cfg m = { m with middlewares := m.middlewares ++ builtinMwFuncs cfg } := by
  by_cases h1 : cfg.enableRequestLogging
  · by_cases h2 : cfg.enableCORS && decide (0 < cfg.allowedOrigins.length)
    · simp [useBuiltins, h1, h2, builtinMwFuncs, use, newLoggingMiddleware, newCORSMiddleware]
    · simp [useBuiltins, h1, h2, builtinMwFuncs, use, newLoggingMiddleware]
  · by_cases h2 : cfg.enableCORS && decide (0 < cfg.allowedOrigins.length)
    · simp [useBuiltins, h1, h2, builtinMwFuncs, use, newCORSMiddleware]
    · simp [useBuiltins, h1, h2, builtinMwFuncs]

/-- Closed form of initMux: built-in transforms, then the filtered user
transforms; registrations are the per-router contributions in order; the root
handler exists iff some router is enabled. -/
lemma initMux_eq (cfg : Config) (mws : List MiddlewareD) (rs : List RouterD) :
    initMux cfg mws rs =
      { middlewares :=
          builtinMwFuncs cfg ++ (mws.filter (mwMount cfg.experimental)).map MiddlewareD.method,
        registrations := (rs.map (routerRegs cfg.experimental)).flatten,
        handlerBuilt := rs.any RouterD.status } := by
  unfold initMux
  rw [routersFold, mwFold, useBuiltins_eq]
  simp

/-- Once the root handler is built, dispatch is the middleware chain around
routing. -/
lemma dispatch_built (m : Mux) (req : Request) (h : m.handlerBuilt = true) :
    dispatch m req = chiChain m.middlewares (routeHTTP m.registrations) req emptyResp := by
  simp [dispatch, h]

/-- The code's mount condition for middleware equals the spec's activation
predicate. -/
lemma mwMount_spec (t : Bool) (mw : MiddlewareD) :
    mwMount t mw = (mw.status && (mw.experimental == t || mw.experimental == false)) := by
  obtain ⟨f, n, s, e⟩ := mw
  cases s <;> cases e <;> cases t <;> rfl

/-- The negation of the code's skip condition for routes equals the spec's
activation predicate. -/
lemma routeSkip_spec (t : Bool) (rt : RouteD) :
    (!routeSkip t rt) = (rt.status && (rt.experimental == t || rt.experimental == false)) := by
  obtain ⟨mth, p, s, e, h, mws⟩ := rt
  cases s <;> cases e <;> cases t <;> rfl

/-- The chi chain over an appended middleware list nests the chains. -/
lemma chiChain_append (a b : List MwFunc) (h : Handler) :
    chiChain (a ++ b) h = chiChain a (chiChain b h) := by
  simp [chiChain, List.foldr_append]

/-- CORS middleware on an OPTIONS request: status 200, headers set iff the
origin is allowed, the inner handler never runs. -/
lemma corsOptions (o : List String) (next : Handler) (req : Request) (w : Resp)
    (hm : req.method = "OPTIONS") :
    corsMwFunc o next req w =
      { (if corsAllowed o (headerGet req.headers "Origin")
         then corsSetHeaders (headerGet req.headers "Origin") w else w) with status := 200 } := by
  simp [corsMwFunc, hm]

/-- Claim C1: a user middleware is mounted iff enabled and (experimental equals
the global toggle or experimental is false); within an enabled router a route is
registered iff the same predicate holds of it; in particular an experimental
route is skipped whenever the toggle is false, and a non-experimental route is
skipped exactly when disabled, independent of the toggle. -/
theorem mounted_iff_enabled_experimental (cfg : Config) (mws : List MiddlewareD) (rs : List RouterD) :
    (initMux cfg mws rs).middlewares =
      builtinMwFuncs cfg ++
        (mws.filter (fun mw =>
          mw.status && (mw.experimental == cfg.experimental || mw.experimental == false))).map MiddlewareD.method
    ∧ (initMux cfg mws rs).registrations =
        (rs.map (fun rtr =>
          if rtr.status then
            (rtr.routes.filter (fun rt =>
              rt.status && (rt.experimental == cfg.experimental || rt.experimental == false))).map
              (routeRegistration rtr)
          else [])).flatten
    ∧ (∀ rt : RouteD, rt.experimental = true → cfg.experimental = false →
        routeSkip cfg.experimental rt = true)
    ∧ (∀ rt : RouteD, rt.experimental = false → routeSkip cfg.experimental rt = !rt.status) := by
  have hmw : (fun mw => mwMount cfg.experimental mw) =
      (fun mw => mw.status && (mw.experimental == cfg.experimental || mw.experimental == false)) :=
    funext (mwMount_spec cfg.experimental)
  have hrt : (fun rt => !routeSkip cfg.experimental rt) =
      (fun rt => rt.status && (rt.experimental == cfg.experimental || rt.experimental == false)) :=
    funext (routeSkip_spec cfg.experimental)
  have hrr : routerRegs cfg.experimental = (fun rtr =>
      if rtr.status then
        (rtr.routes.filter (fun rt =>
          rt.status && (rt.experimental == cfg.experimental || rt.experimental == false))).map
          (routeRegistration rtr)
      else []) := by
    funext rtr
    rw [routerRegs, ← hrt]
  refine ⟨?_, ?_, ?_, ?_⟩
  · rw [initMux_eq, ← hmw]
  · rw [initMux_eq, hrr]
  · intro rt he ht
    rw [ht]
    simp [routeSkip, he]
  · intro rt he
    simp [routeSkip, he]

/-- Witness for C1: with the toggle off, the enabled experimental route is
skipped and the enabled non-experimental route is kept. -/
theorem mounted_iff_enabled_experimental_witness :
    routeSkip cfgOff.experimental rtExp = true ∧ routeSkip cfgOff.experimental rtE = !rtE.status :=
  ⟨(mounted_iff_enabled_experimental cfgOff [] []).2.2.1 rtExp rfl rfl,
   (mounted_iff_enabled_experimental cfgOff [] []).2.2.2 rtE rfl⟩

/-- Claim C2: a disabled router contributes nothing to the dispatch graph: the
mux built with it anywhere in the router list equals the mux built without it,
and its per-router contribution is empty, whatever its routes' flags. -/
theorem disabled_router_mounts_nothing (cfg : Config) (mws : List MiddlewareD)
    (rs1 rs2 : List RouterD) (rtr : RouterD) (h : rtr.status = false) :
    initMux cfg mws (rs1 ++ rtr :: rs2) = initMux cfg mws (rs1 ++ rs2)
    ∧ routerRegs cfg.experimental rtr = [] := by
  have hr : routerRegs cfg.experimental rtr = [] := by simp [routerRegs, h]
  refine ⟨?_, hr⟩
  rw [initMux_eq, initMux_eq]
  simp [hr, h]

/-- Witness for C2: the disabled router `rtrOff`, whose only route is enabled
and non-experimental, adds nothing. -/
theorem disabled_router_mounts_nothing_witness :
    initMux cfgOff [] ([] ++ rtrOff :: []) = initMux cfgOff [] ([] ++ [])
    ∧ routerRegs cfgOff.experimental rtrOff = [] :=
  disabled_router_mounts_nothing cfgOff [] [] [] rtrOff rfl

/-- Claim C3 counterexample: the route at path "/ping" of the enabled router
with base "/test/" is mounted, but it is served at the unnormalised
"//test//ping" (chi mounts the trailing-slash scope "//test/" as "//test/*"
and the sub-router routes "/" ++ the captured "/ping"), not at the
join-normalised "/test/ping": registration does not go through join and is not
invariant to leading/trailing slashes. -/
theorem slashed_path_differs_from_join :
    (initMux cfgOff [] [rtrSlash]).registrations = [routeRegistration rtrSlash rtSlash]
    ∧ (routeRegistration rtrSlash rtSlash).pattern = "//test//ping"
    ∧ goPathJoin ["/", rtrSlash.base, rtSlash.path] = "/test/ping"
    ∧ (routeRegistration rtrSlash rtSlash).pattern ≠ goPathJoin ["/", rtrSlash.base, rtSlash.path] := by
  refine ⟨rfl, rfl, rfl, ?_⟩
  decide

/-- Claim C3 as amended: every mounted route is served at chi's mount
composition of the unnormalised scope "/" ++ base and route pattern
"/" ++ path (their concatenation, with the boundary slash not doubled when the
scope already ends in "/"); the join used only in the log line is invariant
under repeated slash-joining (join("/","test","ping") = join("/","/test/","/ping")
= "/test/ping"), and the served path agrees with the join for slash-free base
and path such as "test"/"ping". -/
theorem registration_path_concat_and_join :
    (∀ (rtr : RouterD) (rt : RouteD),
      (routeRegistration rtr rt).pattern =
        if endsWithSlash ("/" ++ rtr.base)
        then ("/" ++ rtr.base) ++ rt.path
        else ("/" ++ rtr.base) ++ ("/" ++ rt.path))
    ∧ goPathJoin ["/", "test", "ping"] = "/test/ping"
    ∧ goPathJoin ["/", "/test/", "/ping"] = "/test/ping"
    ∧ (initMux cfgOff [] [rtrE]).registrations = [routeRegistration rtrE rtE]
    ∧ (routeRegistration rtrE rtE).pattern = goPathJoin ["/", rtrE.base, rtE.path] :=
  ⟨fun _ _ => rfl, rfl, rfl, rfl, rfl⟩

/-- Claim C4: global middleware applies in list order with the first element
outermost: the chain of [A, B] around a handler is A (B handler), and an
end-to-end request through the mux built from recording middlewares [A, B]
shows A observing the request before B, and B before the route handler. -/
theorem global_middleware_first_outermost :
    (∀ (a b : MwFunc) (h : Handler), chiChain [a, b] h = a (b h))
    ∧ (initMux cfgOff [mwA, mwB] [rtrE]).middlewares = [visit "A", visit "B"]
    ∧ dispatch (initMux cfgOff [mwA, mwB] [rtrE]) reqGP =
        { headers := [], status := 200, body := "A,B" } :=
  ⟨fun _ _ _ => rfl, rfl, rfl⟩

/-- Claim C5: route-local middleware folds in list order with each transform
wrapping the previous result, so the last list element is outermost and the
first is innermost; the registered handler is exactly this fold wrapped by the
router-level chain, and an end-to-end request through local middlewares
[M1, M2] is observed by M2 first, then M1, then the handler. -/
theorem local_middleware_first_innermost :
    (∀ (m1 m2 : MwFunc) (h : Handler), localWrap [m1, m2] h = m2 (m1 h))
    ∧ (∀ (mws : List MwFunc) (m : MwFunc) (h : Handler),
        localWrap (mws ++ [m]) h = m (localWrap mws h))
    ∧ (∀ (rtr : RouterD) (rt : RouteD),
        (routeRegistration rtr rt).handler =
          chiChain rtr.middleware (localWrap rt.middleware rt.handler))
    ∧ dispatch (initMux cfgOff [] [rtrLocal]) reqGP =
        { headers := [], status := 200, body := "M2,M1" } := by
  refine ⟨fun _ _ _ => rfl, ?_, fun _ _ => rfl, rfl⟩
  intro mws m h
  simp [localWrap, List.foldl_append]

/-- Claim C6: with allowedOrigins = ["http://example.com"], the preflight
OPTIONS request from that origin gets status 200, an empty body and
Access-Control-Allow-Origin echoing the origin; the same request from
"http://evil.com" carries no Access-Control-Allow-Origin header. -/
theorem cors_preflight_allowed_vs_denied :
    (dispatch (initMux cfgCors [] [rtrE]) reqGood).status = 200
    ∧ (dispatch (initMux cfgCors [] [rtrE]) reqGood).body = ""
    ∧ headerLookup (dispatch (initMux cfgCors [] [rtrE]) reqGood).headers
        "Access-Control-Allow-Origin" = some "http://example.com"
    ∧ headerLookup (dispatch (initMux cfgCors [] [rtrE]) reqEvil).headers
        "Access-Control-Allow-Origin" = none :=
  ⟨rfl, rfl, rfl, rfl⟩

/-- Claim C7: TLS enabled but cert/key pair not loadable: Start ends in the
fatal "HTTPS server failed" log (process terminates, no retry) and the accept
loop is never reached, i.e. no connection is ever accepted. -/
theorem tls_invalid_cert_fatal_before_accept (cfg : Config) (env : NetEnv)
    (ht : cfg.enableTLS = true) (hb : env.bindOk = true)
    (hc : env.tlsCertKeyValid cfg.tlsCertFile cfg.tlsKeyFile = false) :
    startRun cfg env = .fatal "HTTPS server failed"
    ∧ acceptedConnections (startRun cfg env) = false := by
  simp [startRun, ht, listenAndServeTLSRun, hb, hc, acceptedConnections]

/-- Witness for C7: a TLS configuration against an environment whose cert/key
pair never loads. -/
theorem tls_invalid_cert_fatal_before_accept_witness :
    startRun cfgTLS envBadCert = .fatal "HTTPS server failed"
    ∧ acceptedConnections (startRun cfgTLS envBadCert) = false :=
  tls_invalid_cert_fatal_before_accept cfgTLS envBadCert rfl rfl rfl

/-- Claim C8: every OPTIONS request that reaches the CORS middleware is
answered 200 there, with the body left untouched, whatever the origin list and
the inner handler (first conjunct); end to end, with CORS active and the
middleware reached (some enabled router exists, so chi's root handler runs the
`Use` chain), the response is 200 with empty body no matter which routes
match, and when the origin is not allowed it carries no headers at all: the
origin check only gates the headers, never the 200 short-circuit. -/
theorem options_short_circuit (cfg : Config) (mws : List MiddlewareD) (rs : List RouterD)
    (req : Request) (hc : cfg.enableCORS = true) (hn : 0 < cfg.allowedOrigins.length)
    (hm : req.method = "OPTIONS") (hr : rs.any RouterD.status = true) :
    (∀ (o : List String) (next : Handler) (w : Resp),
        (corsMwFunc o next req w).status = 200 ∧ (corsMwFunc o next req w).body = w.body)
    ∧ (dispatch (initMux cfg mws rs) req).status = 200
    ∧ (dispatch (initMux cfg mws rs) req).body = ""
    ∧ (corsAllowed cfg.allowedOrigins (headerGet req.headers "Origin") = false →
        (dispatch (initMux cfg mws rs) req).headers = []) := by
  have hb : builtinMwFuncs cfg =
      (if cfg.enableRequestLogging then [loggingMwFunc] else []) ++ [corsMwFunc cfg.allowedOrigins] := by
    simp [builtinMwFuncs, hc, hn]
  have hbuilt : (initMux cfg mws rs).handlerBuilt = true := by rw [initMux_eq]; exact hr
  have hd : dispatch (initMux cfg mws rs) req =
      { (if corsAllowed cfg.allowedOrigins (headerGet req.headers "Origin")
         then corsSetHeaders (headerGet req.headers "Origin") emptyResp else emptyResp) with
        status := 200 } := by
    rw [dispatch_built _ _ hbuilt, initMux_eq]
    simp only []
    rw [hb]
    by_cases hl : cfg.enableRequestLogging
    · rw [if_pos hl, List.append_assoc, chiChain_append]
      show loggingMwFunc (chiChain _ _) req emptyResp = _
      show chiChain ([corsMwFunc cfg.allowedOrigins] ++ _) _
        { req with ctx := req.ctx ++ ["ramchi-logger"] } emptyResp = _
      rw [chiChain_append]
      exact corsOptions _ _ _ _ hm
    · rw [if_neg hl, List.nil_append, chiChain_append]
      exact corsOptions _ _ _ _ hm
  refine ⟨?_, by rw [hd], ?_, ?_⟩
  · intro o next w
    rw [corsOptions o next req w hm]
    refine ⟨rfl, ?_⟩
    by_cases ha : corsAllowed o (headerGet req.headers "Origin")
    · simp [ha, corsSetHeaders]
    · simp [ha]
  · rw [hd]
    by_cases ha : corsAllowed cfg.allowedOrigins (headerGet req.headers "Origin")
    · simp [ha, corsSetHeaders, emptyResp]
    · simp [ha, emptyResp]
  · intro hfalse
    rw [hd, hfalse]
    simp [emptyResp]

/-- Witness for C8: the preflight from the disallowed origin, with an enabled
router whose route is registered elsewhere, still gets 200 with empty body and
no headers. -/
theorem options_short_circuit_witness :
    (dispatch (initMux cfgCors [] [rtrE]) reqEvil).status = 200
    ∧ (dispatch (initMux cfgCors [] [rtrE]) reqEvil).body = ""
    ∧ (dispatch (initMux cfgCors [] [rtrE]) reqEvil).headers = [] := by
  have h := options_short_circuit cfgCors [] [rtrE] reqEvil rfl (by decide) rfl rfl
  exact ⟨h.2.1, h.2.2.1, h.2.2.2 (by decide)⟩

/-- Claim C9: with allowedOrigins exactly ["*"], every origin passes the check,
the CORS transform always sets the headers (echoing the request's literal
Origin value, which is "" when the header is absent) with
Access-Control-Allow-Credentials "true", short-circuiting OPTIONS and
delegating otherwise. -/
theorem wildcard_cors_echoes_origin (next : Handler) (req : Request) :
    corsAllowed ["*"] (headerGet req.headers "Origin") = true
    ∧ (∀ w : Resp, corsMwFunc ["*"] next req w =
        if req.method == "OPTIONS"
        then { corsSetHeaders (headerGet req.headers "Origin") w with status := 200 }
        else next req (corsSetHeaders (headerGet req.headers "Origin") w))
    ∧ headerLookup (corsSetHeaders (headerGet req.headers "Origin") emptyResp).headers
        "Access-Control-Allow-Origin" = some (headerGet req.headers "Origin")
    ∧ headerLookup (corsSetHeaders (headerGet req.headers "Origin") emptyResp).headers
        "Access-Control-Allow-Credentials" = some "true"
    ∧ (req.headers.find? (fun p => p.1 == "Origin") = none →
        headerGet req.headers "Origin" = "") := by
  refine ⟨rfl, fun w => rfl, rfl, rfl, ?_⟩
  intro h
  simp [headerGet, h]

/-- Witness for C9: the request without an Origin header passes the wildcard
check and its echoed origin is the empty string. -/
theorem wildcard_cors_echoes_origin_witness :
    corsAllowed ["*"] (headerGet reqNoOrigin.headers "Origin") = true
    ∧ headerGet reqNoOrigin.headers "Origin" = "" :=
  ⟨(wildcard_cors_echoes_origin hW reqNoOrigin).1,
   (wildcard_cors_echoes_origin hW reqNoOrigin).2.2.2.2 rfl⟩

/-- Claim C10: config.New loads only when the package-level config is nil:
with the config already set it succeeds and changes nothing regardless of the
file system; and after any successful first New, every later New succeeds and
leaves the loaded value unchanged even against a different file system. -/
theorem config_new_idempotent :
    (∀ (cfg : Config) (fs : Option ConfFile), newRun (some cfg) fs = (.ok (), some cfg, fs))
    ∧ (∀ (fs fs1 : Option ConfFile) (st : Option Config),
        newRun none fs = (.ok (), st, fs1) →
        ∀ fs2 : Option ConfFile, newRun st fs2 = (.ok (), st, fs2)) := by
  refine ⟨fun cfg fs => rfl, ?_⟩
  intro fs fs1 st h fs2
  rcases hl : loadRun fs with ⟨e, fs3⟩
  cases e with
  | ok cfg =>
    rw [newRun, hl] at h
    injection h with h1 h2
    injection h2 with h3 h4
    rw [← h3]
    rfl
  | error e =>
    rw [newRun, hl] at h
    simp at h

/-- Witness for C10: after the first New created and loaded the default config,
a later New against a now-corrupt file still succeeds with the old value. -/
theorem config_new_idempotent_witness :
    newRun (some ({} : Config)) (some ⟨.error "changed"⟩) =
      (.ok (), some {}, some ⟨.error "changed"⟩) :=
  config_new_idempotent.2 none (some ⟨.ok {}⟩) (some {}) rfl (some ⟨.error "changed"⟩)

end Ramchi
